import Mathlib

/-!
Verification development for the Email Intelligence unified alert engine.

The first part embeds the client-side glue that is present in the
repository source (the `apiService` module: `unifiedAlertsAPI.dashboard.getActivity`
query building and `alertsAPI.getStats`).  The second part models the
server-side alert engine (rule store, activity aggregator, anomaly
detector, evaluation dispatcher, dashboard queries) from the design
specification, since the backend implementation is not part of the
sources; every such definition carries a doc comment saying so.
-/

namespace EmailIntel

/-! ### JavaScript values for query parameters -/

/-- A JavaScript value as it can appear in an API query-parameter object:
`null`, `undefined`, a string, a number (modelled as a rational) or a
boolean. -/
inductive JSValue where
  | jnull : JSValue
  | jundef : JSValue
  | jstr : String → JSValue
  | jnum : ℚ → JSValue
  | jbool : Bool → JSValue
deriving DecidableEq

/-- The filter used by `unifiedAlertsAPI.dashboard.getActivity`:
a caller-supplied entry is forwarded only when its value is neither
`null`, nor `undefined`, nor the empty string
(`params[key] !== null && params[key] !== undefined && params[key] !== ''`). -/
def isForwarded : JSValue → Bool
  | JSValue.jnull => false
  | JSValue.jundef => false
  | JSValue.jstr s => decide (s ≠ "")
  | JSValue.jnum _ => true
  | JSValue.jbool _ => true

/-- Assignment `obj[key] = value` on an object modelled as an association
list: overwrite the first binding of the key, or append a new binding. -/
def setEntry {β : Type} : List (String × β) → String → β → List (String × β)
  | [], k, v => [(k, v)]
  | p :: ps, k, v => if p.1 = k then (k, v) :: ps else p :: setEntry ps k v

/-- The `defaults` object of `unifiedAlertsAPI.dashboard.getActivity`. -/
def activityDefaults : List (String × JSValue) :=
  [("hours_back", JSValue.jnum 720),
   ("algorithm", JSValue.jstr "dbscan"),
   ("dbscan_eps", JSValue.jnum (1/2)),
   ("dbscan_min_samples", JSValue.jnum 3),
   ("kmeans_clusters", JSValue.jnum 3),
   ("use_all_data", JSValue.jbool true)]

/-- `unifiedAlertsAPI.dashboard.getActivity` query construction: start from
`activityDefaults` and copy over every caller entry whose value passes the
`isForwarded` filter, in iteration order of the caller object's keys. -/
def buildActivityQuery (params : List (String × JSValue)) : List (String × JSValue) :=
  params.foldl (fun acc p => if isForwarded p.2 then setEntry acc p.1 p.2 else acc)
    activityDefaults

/-! ### alertsAPI.getStats (client-side aggregation) -/

/-- An alert row as it appears in the `list()` response consumed by
`alertsAPI.getStats`. -/
structure ListedAlert where
  enabled : Bool
  severity : String
deriving DecidableEq

/-- The `list()` response shape: the rows and the server-reported total. -/
structure AlertsListResponse where
  alerts : List ListedAlert
  total : Nat
deriving DecidableEq

/-- A triggered-alert row as consumed by `alertsAPI.getStats`
(timestamp in milliseconds since the epoch). -/
structure TriggeredRow where
  triggered_at : Int
deriving DecidableEq

/-- The `getTriggeredAlerts(100)` response shape. -/
structure TriggeredResponse where
  triggered : List TriggeredRow
deriving DecidableEq

/-- One step of the `alerts.alerts.forEach` loop of `alertsAPI.getStats`:
`bySeverity[a.severity] = (bySeverity[a.severity] || 0) + 1` on an object
modelled as an association list. -/
def bumpSeverity (m : List (String × Nat)) (sev : String) : List (String × Nat) :=
  match m.lookup sev with
  | some n => setEntry m sev (n + 1)
  | none => m ++ [(sev, 1)]

/-- The `bySeverity` object computed by `alertsAPI.getStats`: initialised
to `{low: 0, medium: 0, high: 0, critical: 0}` and bumped once per listed
alert. -/
def bySeverityOf (alerts : List ListedAlert) : List (String × Nat) :=
  alerts.foldl (fun m a => bumpSeverity m a.severity)
    [("low", 0), ("medium", 0), ("high", 0), ("critical", 0)]

/-- The number of listed alerts carrying a given severity string. -/
def countSev (alerts : List ListedAlert) (sev : String) : Nat :=
  (alerts.filter (fun a => a.severity == sev)).length

/-- The statistics object returned by `alertsAPI.getStats`. -/
structure AlertStats where
  total_alerts : Nat
  enabled_alerts : Nat
  triggered_last_24h : Nat
  by_severity : List (String × Nat)
deriving DecidableEq

/-- `alertsAPI.getStats`, computed from the `list()` and
`getTriggeredAlerts(100)` responses and the current time in milliseconds:
`total_alerts` is the list response's `total`, `enabled_alerts` counts the
rows with `enabled`, `triggered_last_24h` counts the triggered rows with
`now - triggered_at < 24*60*60*1000`, and `by_severity` is the bumped
severity object. -/
def getStats (listResp : AlertsListResponse) (trigResp : TriggeredResponse)
    (now : Int) : AlertStats :=
  { total_alerts := listResp.total
    enabled_alerts := (listResp.alerts.filter (fun a => a.enabled)).length
    triggered_last_24h :=
      (trigResp.triggered.filter
        (fun t => now - t.triggered_at < 24 * 60 * 60 * 1000)).length
    by_severity := bySeverityOf listResp.alerts }

/-! ### Alert engine data model (server side) -/

/-- Modelled from the spec: severity levels of an alert definition
(section 3, severity in low/medium/high/critical). -/
inductive Severity where
  | low | medium | high | critical
deriving DecidableEq

/-- Modelled from the spec: anomaly classification of a flagged bucket
(section 4.3: spike, silence, unusual_pattern, data_gap). -/
inductive AnomalyType where
  | spike | silence | unusualPattern | dataGap
deriving DecidableEq

/-- Modelled from the spec: the two detection algorithms (section 3). -/
inductive Algo where
  | dbscan | kmeans
deriving DecidableEq

/-- Modelled from the spec: the detection parameters of an entity-type
alert (section 3, EntityTypeAlert). -/
structure EntityParams where
  entity_type : String
  entity_value : Option String
  detection_algorithm : Algo
  dbscan_eps : ℚ
  dbscan_min_samples : Nat
  kmeans_clusters : Nat
  sensitivity : ℚ
  window_hours : Nat
  baseline_days : Nat
deriving DecidableEq

/-- Modelled from the spec: the category-specific part of an alert
definition (section 3, tagged union by category: data-quality,
entity-type, smart-AI). -/
inductive AlertPayload where
  | dataQuality (quality_type : String) (file_format : String)
      (file_size_min : Option Nat) (file_size_max : Option Nat)
  | entityType (p : EntityParams)
  | smartAI (detection_algorithm : Algo) (similarity_threshold : ℚ)
deriving DecidableEq

/-- Modelled from the spec: an alert definition with its common lifecycle
fields (section 3: identifier, name, description, severity, enabled,
trigger_count, last_triggered_at, created_at) and category payload. -/
structure AlertDefinition where
  id : Nat
  name : String
  description : Option String
  severity : Severity
  enabled : Bool
  trigger_count : Nat
  last_triggered_at : Option Nat
  created_at : Nat
  payload : AlertPayload
deriving DecidableEq

/-- The category tag of an alert definition. -/
def AlertDefinition.category : AlertDefinition → String
  | a => match a.payload with
    | AlertPayload.dataQuality _ _ _ _ => "data_quality"
    | AlertPayload.entityType _ => "entity_type"
    | AlertPayload.smartAI _ _ => "smart_ai"

/-- Modelled from the spec: an immutable triggered-alert history row
(section 3, TriggeredAlertRecord). -/
structure TriggeredAlertRecord where
  alert_id : Nat
  category : String
  severity : Severity
  triggered_at : Nat
  trigger_reason : String
  anomaly_type : Option AnomalyType
deriving DecidableEq

/-- Modelled from the spec: the rule store holding alert definitions and
the append-only trigger history (sections 3 and 4.4); the history list
keeps the most recently appended record first. -/
structure RuleStore where
  alerts : List AlertDefinition
  history : List TriggeredAlertRecord
deriving DecidableEq

/-- Modelled from the spec: the error taxonomy relevant to the rule-store
interface (section 7: ValidationError, NotFoundError, InvalidRangeError). -/
inductive ApiError where
  | validation | notFound | invalidRange
deriving DecidableEq

/-- `get(id)`: the first stored definition with the requested identifier. -/
def getAlert (s : RuleStore) (id : Nat) : Option AlertDefinition :=
  s.alerts.find? (fun a => a.id = id)

/-- `list(enabled_only?, limit)`: the stored definitions, optionally
restricted to enabled ones, truncated to the limit. -/
def listAlerts (s : RuleStore) (enabledOnly : Bool) (limit : Nat) :
    List AlertDefinition :=
  (if enabledOnly then s.alerts.filter (fun a => a.enabled) else s.alerts).take limit

/-- Modelled from the spec: boundary validation of the numeric detection
parameters (section 6: dbscan_eps in (0,5], dbscan_min_samples in [1,20],
kmeans_clusters in [2,10], sensitivity in [0.5,5], window_hours in
the set 1/6/12/24/48/168, baseline_days in [1,30]). -/
def validEntityParams (p : EntityParams) : Bool :=
  (0 < p.dbscan_eps && p.dbscan_eps ≤ 5) &&
  (1 ≤ p.dbscan_min_samples && p.dbscan_min_samples ≤ 20) &&
  (2 ≤ p.kmeans_clusters && p.kmeans_clusters ≤ 10) &&
  ((1/2 : ℚ) ≤ p.sensitivity && p.sensitivity ≤ 5) &&
  decide (p.window_hours ∈ ([1, 6, 12, 24, 48, 168] : List Nat)) &&
  (1 ≤ p.baseline_days && p.baseline_days ≤ 30)

/-- Modelled from the spec: boundary validation of a category payload
(section 6; for smart-AI, similarity_threshold in [0.3, 1.0]; data-quality
has no numeric detection parameters). -/
def validPayload : AlertPayload → Bool
  | AlertPayload.dataQuality _ _ _ _ => true
  | AlertPayload.entityType p => validEntityParams p
  | AlertPayload.smartAI _ th => (3/10 : ℚ) ≤ th && th ≤ 1

/-- The boundary ranges of the numeric detection parameters as stated in
the interface contract (section 6), as a proposition. -/
def EntityInRange (p : EntityParams) : Prop :=
  0 < p.dbscan_eps ∧ p.dbscan_eps ≤ 5 ∧
  1 ≤ p.dbscan_min_samples ∧ p.dbscan_min_samples ≤ 20 ∧
  2 ≤ p.kmeans_clusters ∧ p.kmeans_clusters ≤ 10 ∧
  (1/2 : ℚ) ≤ p.sensitivity ∧ p.sensitivity ≤ 5 ∧
  p.window_hours ∈ ([1, 6, 12, 24, 48, 168] : List Nat) ∧
  1 ≤ p.baseline_days ∧ p.baseline_days ≤ 30

instance (p : EntityParams) : Decidable (EntityInRange p) := by
  unfold EntityInRange
  infer_instance

/-- `create(definition)`: modelled from the spec (sections 4.4 and 6);
out-of-range parameters are rejected with a ValidationError before the
definition is stored, and a valid definition is appended to the store. -/
def createAlert (s : RuleStore) (a : AlertDefinition) : Except ApiError RuleStore :=
  if validPayload a.payload then
    Except.ok { s with alerts := s.alerts ++ [a] }
  else Except.error ApiError.validation

/-- A PUT body: each field is `some` when present in the request.  The
`description` field distinguishes an absent key from an explicit null. -/
structure AlertPatch where
  name : Option String := none
  description : Option (Option String) := none
  severity : Option Severity := none
  enabled : Option Bool := none
  payload : Option AlertPayload := none
deriving DecidableEq

/-- Modelled from the spec: applying an `update(id, partial)` body to a
stored definition — present fields replace the stored ones, absent fields
are kept, and trigger bookkeeping fields are never touched by update. -/
def applyPatch (a : AlertDefinition) (u : AlertPatch) : AlertDefinition :=
  { a with
    name := u.name.getD a.name
    description := u.description.getD a.description
    severity := u.severity.getD a.severity
    enabled := u.enabled.getD a.enabled
    payload := u.payload.getD a.payload }

/-- Modelled from the spec: validation of an update body — the numeric
ranges are checked on the parameters present in the request. -/
def validPatch (u : AlertPatch) : Bool :=
  match u.payload with
  | some pl => validPayload pl
  | none => true

/-- `update(id, partial)`: modelled from the spec (section 4.4: fails with
NotFoundError on an unknown identifier and ValidationError on
out-of-range parameters, otherwise applies the partial body). -/
def updateAlert (s : RuleStore) (id : Nat) (u : AlertPatch) :
    Except ApiError RuleStore :=
  match getAlert s id with
  | none => Except.error ApiError.notFound
  | some _ =>
    if validPatch u then
      Except.ok { s with
        alerts := s.alerts.map (fun b => if b.id = id then applyPatch b u else b) }
    else Except.error ApiError.validation

/-- `toggle(id)` as implemented by `alertsAPI.toggle` in the source: fetch
the alert, then issue an update whose body carries only the negated
`enabled` flag. -/
def toggleAlert (s : RuleStore) (id : Nat) : Except ApiError RuleStore :=
  match getAlert s id with
  | none => Except.error ApiError.notFound
  | some a => updateAlert s id { enabled := some (!a.enabled) }

/-- `delete(id)`: modelled from the spec (section 4.4: removes the
definition; prior trigger history is immutable audit data and is not
cascade-deleted). -/
def deleteAlert (s : RuleStore) (id : Nat) : RuleStore :=
  { s with alerts := s.alerts.filter (fun a => a.id ≠ id) }

/-! ### Activity Aggregator and Baseline Estimator -/

/-- Modelled from the spec: one output bucket of the Activity Aggregator
(section 4.1: timestamp of the bucket start, event count). -/
structure Bucket where
  timestamp : Nat
  count : Nat
deriving DecidableEq

/-- Modelled from the spec: an entity-mention event of the external event
store (section 6: document id, entity type, entity value, timestamp;
time is measured in hours in this model). -/
structure MentionEvent where
  docId : Nat
  entityType : String
  entityValue : String
  time : Nat
deriving DecidableEq

/-- The number of buckets of width `w` needed to cover `[lo, hi)`:
the ceiling of `(hi - lo) / w` in natural arithmetic. -/
def numBuckets (lo hi w : Nat) : Nat := (hi - lo + w - 1) / w

/-- Modelled from the spec: the count of events falling in the half-open
interval `[t, t + w)`. -/
def bucketCount (events : List Nat) (t w : Nat) : Nat :=
  (events.filter (fun e => t ≤ e && e < t + w)).length

/-- Modelled from the spec: the zero-filled bucket sequence of the
Activity Aggregator over `[lo, hi)` with bucket width `w` (section 4.1:
one bucket per interval, aligned, present even when its count is zero). -/
def bucketSeq (events : List Nat) (lo hi w : Nat) : List Bucket :=
  (List.range (numBuckets lo hi w)).map
    (fun i => { timestamp := lo + i * w, count := bucketCount events (lo + i * w) w })

/-- Modelled from the spec: the Activity Aggregator contract (section 4.1)
— an InvalidRangeError when `hi ≤ lo`, otherwise the ordered zero-filled
bucket sequence. -/
def aggregate (events : List Nat) (lo hi w : Nat) : Except ApiError (List Bucket) :=
  if hi ≤ lo then Except.error ApiError.invalidRange
  else Except.ok (bucketSeq events lo hi w)

/-- Sum of a list of rationals. -/
def sumQ (xs : List ℚ) : ℚ := xs.foldr (· + ·) 0

/-- Mean of a list of natural counts as a rational; zero on an empty list. -/
def meanQ (xs : List Nat) : ℚ :=
  if xs.length = 0 then 0 else sumQ (xs.map (fun n => (n : ℚ))) / xs.length

/-- Modelled from the spec: minimum number of baseline events below which
the sparse-baseline policy applies (section 4.2). -/
def minBaselineSamples : Nat := 1

/-- Modelled from the spec: the Baseline Estimator (section 4.2) — the
mean hourly bucket count over the baseline period, or zero when the
period yields fewer than the minimum sample count (sparse-baseline
policy, never a hard failure). -/
def baselineMean (events : List Nat) (lo hi : Nat) : ℚ :=
  let counts := (bucketSeq events lo hi 1).map (fun b => b.count)
  if (events.filter (fun e => lo ≤ e && e < hi)).length < minBaselineSamples then 0
  else meanQ counts

/-! ### Anomaly Detector -/

/-- Modelled from the spec: the parameter set of the Anomaly Detector
(section 4.3: algorithm, eps, min_samples, clusters, sensitivity). -/
structure DetectorParams where
  algorithm : Algo
  eps : ℚ
  min_samples : Nat
  clusters : Nat
  sensitivity : ℚ
deriving DecidableEq

/-- The 1-D coordinates of the buckets: each bucket count as a rational. -/
def points (counts : List Nat) : List ℚ := counts.map (fun n => (n : ℚ))

/-- Modelled from the spec: a bucket is a DBSCAN core point when at least
`min_samples - 1` other buckets have a count within `eps` of its own
(section 4.3, DBSCAN variant). -/
def isCore (pts : List ℚ) (i : Nat) (eps : ℚ) (minS : Nat) : Bool :=
  minS - 1 ≤ ((List.range pts.length).filter
    (fun j => j ≠ i && |pts.getD i 0 - pts.getD j 0| ≤ eps)).length

/-- Modelled from the spec: DBSCAN noise flags — a bucket is anomalous
when it is not within `eps` of any core point (section 4.3: buckets not
reachable from any core point are noise). -/
def dbscanFlags (counts : List Nat) (eps : ℚ) (minS : Nat) : List Bool :=
  let pts := points counts
  (List.range pts.length).map (fun i =>
    ! (List.range pts.length).any (fun j =>
        isCore pts j eps minS && |pts.getD i 0 - pts.getD j 0| ≤ eps))

/-- Index of the centroid nearest to `x`, ties resolved to the smallest
index (deterministic assignment). -/
def nearestIdx (cs : List ℚ) (x : ℚ) : Nat :=
  (List.range cs.length).foldl
    (fun best j => if |x - cs.getD j 0| < |x - cs.getD best 0| then j else best) 0

/-- One Lloyd update: each centroid moves to the mean of its assigned
points; a centroid with no assigned points is kept. -/
def updateCentroids (cs : List ℚ) (pts : List ℚ) : List ℚ :=
  (List.range cs.length).map (fun j =>
    let mine := pts.filter (fun x => nearestIdx cs x = j)
    if mine.length = 0 then cs.getD j 0 else sumQ mine / mine.length)

/-- Fuel-bounded Lloyd iteration, stopping at a fixed point (section 4.3:
convergence or a fixed iteration cap). -/
def kmeansIter : Nat → List ℚ → List ℚ → List ℚ
  | 0, cs, _ => cs
  | fuel + 1, cs, pts =>
    let cs' := updateCentroids cs pts
    if cs' = cs then cs else kmeansIter fuel cs' pts

/-- Modelled from the spec: evenly spaced initial centroids across the
observed count range (section 4.3, fixed-seed initialisation for
determinism), with the effective cluster count capped at the number of
distinct values. -/
def initialCentroids (pts : List ℚ) (k : Nat) : List ℚ :=
  let kEff := min k pts.dedup.length
  let lo := pts.foldr min (pts.getD 0 0)
  let hi := pts.foldr max (pts.getD 0 0)
  if kEff ≤ 1 then [lo]
  else (List.range kEff).map (fun i => lo + i * (hi - lo) / (kEff - 1))

/-- Modelled from the spec: K-Means anomaly flags — after convergence a
bucket is anomalous when its distance to its assigned centroid exceeds
`sensitivity` times the average intra-cluster distance (section 4.3). -/
def kmeansFlags (counts : List Nat) (k : Nat) (sensitivity : ℚ) : List Bool :=
  let pts := points counts
  if pts.length = 0 then []
  else
    let cs := kmeansIter 50 (initialCentroids pts k) pts
    let dists := pts.map (fun x => |x - cs.getD (nearestIdx cs x) 0|)
    let avg := sumQ dists / pts.length
    dists.map (fun d => sensitivity * avg < d)

/-- Modelled from the spec: the anomaly classification of a flagged bucket
(section 4.3: spike above the baseline mean, silence for a zero count
against a non-zero baseline, unusual_pattern otherwise). -/
def classify (count : Nat) (bmean : ℚ) : AnomalyType :=
  if bmean < (count : ℚ) then AnomalyType.spike
  else if count = 0 && 0 < bmean then AnomalyType.silence
  else AnomalyType.unusualPattern

/-- Modelled from the spec: the Anomaly Detector (section 4.3) — the flag
and anomaly-type sequence for the evaluation-window counts; pure in its
inputs, and an empty input yields no anomalies. -/
def detectAnomalies (counts : List Nat) (dp : DetectorParams) (bmean : ℚ) :
    List (Bool × Option AnomalyType) :=
  let flags :=
    match dp.algorithm with
    | Algo.dbscan => dbscanFlags counts dp.eps dp.min_samples
    | Algo.kmeans => kmeansFlags counts dp.clusters dp.sensitivity
  (counts.zip flags).map (fun p =>
    (p.2, if p.2 then some (classify p.1 bmean) else none))

/-! ### Evaluation Dispatcher -/

/-- An ingestion record consulted by data-quality checks (format, size,
optional detected issue). -/
structure IngestionRecord where
  file_format : String
  file_size : Nat
  error_type : Option String
  error_details : String
deriving DecidableEq

/-- A data-quality issue reported in an evaluation result. -/
structure Issue where
  error_type : String
  error_details : String
deriving DecidableEq

/-- Modelled from the spec: the external collaborators an evaluation
consults (section 6: the event store, the ingestion records for
data-quality checks, the semantic-match collaborator `(document_id,
score)` pairs), plus the smart-AI minimum match count (section 4.5). -/
structure EvalEnv where
  ingestion : List IngestionRecord
  events : List MentionEvent
  semMatches : List (Nat × ℚ)
  minMatchCount : Nat
deriving DecidableEq

/-- Modelled from the spec: the category-specific diagnostic payload of an
evaluation result (section 3: issues list for data-quality;
current_value, baseline_value, algorithm, anomaly_type and trigger_reason
for entity-type and smart-AI). -/
inductive ResultPayload where
  | dataQuality (issues : List Issue)
  | anomaly (current_value : ℚ) (baseline_value : ℚ) (algorithm : Algo)
      (anomaly_type : Option AnomalyType) (trigger_reason : String)
deriving DecidableEq

/-- Modelled from the spec: an evaluation result (section 3: triggered
flag, category-specific payload, timestamp). -/
structure EvaluationResult where
  triggered : Bool
  payload : ResultPayload
  timestamp : Nat
deriving DecidableEq

/-- Modelled from the spec: the data-quality checks (section 4.5) — the
issues found on the ingestion records matching the alert's format and
size filters. -/
def dataQualityIssues (ff : String) (smin smax : Option Nat)
    (recs : List IngestionRecord) : List Issue :=
  ((recs.filter (fun r =>
      (ff = "all" || r.file_format = ff) &&
      (match smin with | some m => m ≤ r.file_size | none => true) &&
      (match smax with | some m => r.file_size ≤ m | none => true))).filterMap
    (fun r => r.error_type.map (fun et => { error_type := et, error_details := r.error_details })))

/-- Does an event match an entity-type alert's filter (section 4.5:
entity_type "ALL" matches every type; an optional specific value)? -/
def matchesEntity (p : EntityParams) (e : MentionEvent) : Bool :=
  (p.entity_type = "ALL" || e.entityType = p.entity_type) &&
  (match p.entity_value with | some v => e.entityValue = v | none => true)

/-- The outcome of running the Aggregator, Baseline Estimator and Anomaly
Detector over a set of event timestamps. -/
structure SeriesOutcome where
  is_anomaly : Bool
  current_value : ℚ
  baseline_value : ℚ
  anomaly_type : Option AnomalyType
deriving DecidableEq

/-- Modelled from the spec: the shared anomaly pipeline of the dispatcher
(sections 4.2, 4.3 and 4.5) — hourly buckets over the evaluation window
`[now - windowH, now)`, baseline mean over the non-overlapping period
`[now - windowH - baselineD * 24, now - windowH)`, detector flags; the
evaluation is anomalous when any in-window bucket is flagged. -/
def runSeries (times : List Nat) (dp : DetectorParams)
    (windowH baselineD now : Nat) : SeriesOutcome :=
  let wLo := now - windowH
  let counts := (bucketSeq times wLo now 1).map (fun b => b.count)
  let bmean := baselineMean times (wLo - baselineD * 24) wLo
  let flags := detectAnomalies counts dp bmean
  { is_anomaly := flags.any (fun f => f.1)
    current_value := meanQ counts
    baseline_value := bmean
    anomaly_type := (flags.find? (fun f => f.1)).bind (fun f => f.2) }

/-- Modelled from the spec: the fixed window and baseline used when a
smart-AI alert is pushed through the anomaly pipeline (section 4.5). -/
def smartWindowHours : Nat := 24

/-- Modelled from the spec: the baseline days of the smart-AI pipeline. -/
def smartBaselineDays : Nat := 7

/-- Modelled from the spec: the Evaluation Dispatcher's per-category
evaluation (section 4.5) — data-quality triggers when an issue matches
the alert's quality_type; entity-type triggers when any in-window bucket
is anomalous; smart-AI filters documents by similarity score, runs the
same pipeline, and also triggers when the match count exceeds the
configured minimum. -/
def evaluateDefinition (a : AlertDefinition) (env : EvalEnv) (now : Nat) :
    EvaluationResult :=
  match a.payload with
  | AlertPayload.dataQuality qt ff smin smax =>
    let issues := dataQualityIssues ff smin smax env.ingestion
    { triggered := issues.any (fun i => i.error_type = qt)
      payload := ResultPayload.dataQuality issues
      timestamp := now }
  | AlertPayload.entityType p =>
    let times := (env.events.filter (matchesEntity p)).map (fun e => e.time)
    let dp : DetectorParams :=
      { algorithm := p.detection_algorithm, eps := p.dbscan_eps
        min_samples := p.dbscan_min_samples, clusters := p.kmeans_clusters
        sensitivity := p.sensitivity }
    let o := runSeries times dp p.window_hours p.baseline_days now
    { triggered := o.is_anomaly
      payload := ResultPayload.anomaly o.current_value o.baseline_value
        p.detection_algorithm o.anomaly_type
        (if o.is_anomaly then "anomaly detected" else "no anomaly")
      timestamp := now }
  | AlertPayload.smartAI alg th =>
    let matchedIds := (env.semMatches.filter (fun m => th ≤ m.2)).map (fun m => m.1)
    let times := (env.events.filter (fun e => matchedIds.contains e.docId)).map
      (fun e => e.time)
    let dp : DetectorParams :=
      { algorithm := alg, eps := 1/2, min_samples := 3, clusters := 3
        sensitivity := 3/2 }
    let o := runSeries times dp smartWindowHours smartBaselineDays now
    let trig := o.is_anomaly || env.minMatchCount < matchedIds.length
    { triggered := trig
      payload := ResultPayload.anomaly o.current_value o.baseline_value alg
        o.anomaly_type (if trig then "anomaly detected" else "no anomaly")
      timestamp := now }

/-- The anomaly type recorded on trigger, defaulting to unusual_pattern
when the result carries none. -/
def recordedType (r : EvaluationResult) : Option AnomalyType :=
  match r.payload with
  | ResultPayload.dataQuality _ => some AnomalyType.dataGap
  | ResultPayload.anomaly _ _ _ t _ => t

/-- The history row appended when an alert triggers (section 3,
TriggeredAlertRecord). -/
def mkRecord (a : AlertDefinition) (r : EvaluationResult) (now : Nat) :
    TriggeredAlertRecord :=
  { alert_id := a.id
    category := a.category
    severity := a.severity
    triggered_at := now
    trigger_reason :=
      (match r.payload with
       | ResultPayload.dataQuality _ => "data quality issue"
       | ResultPayload.anomaly _ _ _ _ reason => reason)
    anomaly_type := recordedType r }

/-- Modelled from the spec: `evaluate(alert_id)` with its trigger
bookkeeping (section 4.5) — load the definition, compute the result; on
trigger, increment `trigger_count`, set `last_triggered_at` and append
exactly one history record; on no trigger, leave the store untouched. -/
def runEvaluation (s : RuleStore) (id : Nat) (env : EvalEnv) (now : Nat) :
    RuleStore × Option EvaluationResult :=
  match getAlert s id with
  | none => (s, none)
  | some a =>
    let r := evaluateDefinition a env now
    if r.triggered then
      ({ alerts := s.alerts.map (fun b =>
            if b.id = id then
              { b with trigger_count := b.trigger_count + 1
                       last_triggered_at := some now }
            else b)
         history := mkRecord a r now :: s.history }, some r)
    else (s, some r)

/-! ### Dashboard Query Service -/

/-- Newest-first ordering on history rows. -/
def newestFirst (a b : TriggeredAlertRecord) : Prop :=
  b.triggered_at ≤ a.triggered_at

instance : DecidableRel newestFirst := fun a b =>
  inferInstanceAs (Decidable (b.triggered_at ≤ a.triggered_at))

instance : IsTotal TriggeredAlertRecord newestFirst :=
  ⟨fun a b => Nat.le_total b.triggered_at a.triggered_at⟩

instance : IsTrans TriggeredAlertRecord newestFirst :=
  ⟨fun _ _ _ h h' => Nat.le_trans h' h⟩

/-- Modelled from the spec: `dashboard.recent_alerts(limit)`
(section 4.7: the most recent TriggeredAlertRecord entries across all
categories, newest first, truncated to the limit). -/
def recentAlerts (s : RuleStore) (limit : Nat) : List TriggeredAlertRecord :=
  (List.insertionSort newestFirst s.history).take limit

/-- Modelled from the spec: the trigger-bookkeeping invariant (section 3,
invariants b and c) — alert identifiers are unique, each alert's
`trigger_count` equals the number of history rows for that alert, and its
`last_triggered_at` is the most recently appended such row's timestamp,
or none when there is no row. -/
def StoreInvariant (s : RuleStore) : Prop :=
  (s.alerts.map (fun a => a.id)).Nodup ∧
  ∀ a ∈ s.alerts,
    a.trigger_count = (s.history.filter (fun t => t.alert_id == a.id)).length ∧
    a.last_triggered_at =
      ((s.history.filter (fun t => t.alert_id == a.id)).head?).map
        (fun t => t.triggered_at)

instance (s : RuleStore) : Decidable (StoreInvariant s) :=
  inferInstanceAs (Decidable (_ ∧ _))

/-! ## Theorems -/

theorem lookup_setEntry_self {β : Type} (ps : List (String × β)) (k : String) (v : β) :
    (setEntry ps k v).lookup k = some v := by
  induction ps with
  | nil => simp [setEntry]
  | cons p ps ih =>
    obtain ⟨a, b⟩ := p
    by_cases h : a = k
    · subst h
      simp [setEntry]
    · have hb : (k == a) = false := by
        simp only [beq_eq_false_iff_ne, ne_eq]
        exact fun hk => h hk.symm
      simp [setEntry, h, List.lookup_cons, hb, ih]

theorem lookup_setEntry_ne {β : Type} (ps : List (String × β)) (k k' : String) (v : β)
    (h : k' ≠ k) : (setEntry ps k v).lookup k' = ps.lookup k' := by
  induction ps with
  | nil =>
    have hb : (k' == k) = false := by simpa [beq_eq_false_iff_ne] using h
    simp [setEntry, List.lookup_cons, hb]
  | cons p ps ih =>
    obtain ⟨a, b⟩ := p
    by_cases ha : a = k
    · subst ha
      have hb : (k' == a) = false := by simpa [beq_eq_false_iff_ne] using h
      simp [setEntry, List.lookup_cons, hb]
    · simp [setEntry, ha, List.lookup_cons, ih]

theorem lookup_of_not_mem_keys {β : Type} (ps : List (String × β)) (k : String)
    (h : k ∉ ps.map Prod.fst) : ps.lookup k = none := by
  rw [List.lookup_eq_none_iff]
  intro p hp
  simp only [bne_iff_ne, ne_eq]
  intro hk
  exact h (by simpa [hk] using List.mem_map_of_mem Prod.fst hp)

theorem buildActivityQuery_foldl_lookup (ps : List (String × JSValue)) :
    ∀ (acc : List (String × JSValue)) (k : String),
      (ps.map Prod.fst).Nodup →
      (ps.foldl (fun acc p => if isForwarded p.2 then setEntry acc p.1 p.2 else acc)
          acc).lookup k =
        (match ps.lookup k with
         | some v => if isForwarded v then some v else acc.lookup k
         | none => acc.lookup k) := by
  induction ps with
  | nil =>
    intro acc k _
    simp
  | cons p ps ih =>
    intro acc k hnd
    obtain ⟨a, v⟩ := p
    simp only [List.map_cons, List.nodup_cons] at hnd
    simp only [List.foldl_cons]
    by_cases hk : k = a
    · subst hk
      have hnone : ps.lookup k = none :=
        lookup_of_not_mem_keys ps k hnd.1
      rw [ih _ k hnd.2, hnone, List.lookup_cons_self]
      by_cases hf : isForwarded v
      · simp [hf, lookup_setEntry_self]
      · simp [hf]
    · have hb : (k == a) = false := by simpa [beq_eq_false_iff_ne] using hk
      rw [ih _ k hnd.2, List.lookup_cons, hb]
      by_cases hf : isForwarded v
      · simp only [hf, if_true]
        cases hps : ps.lookup k with
        | none => simp [lookup_setEntry_ne _ _ _ _ hk]
        | some w => by_cases hw : isForwarded w <;>
            simp [hw, lookup_setEntry_ne _ _ _ _ hk]
      · simp [hf]

/-- Claim C9: the query emitted by `unifiedAlertsAPI.dashboard.getActivity`
maps every key to the caller's value when the caller supplied one that is
neither null, nor undefined, nor the empty string, and to the default
binding (possibly absent) otherwise — an excluded caller entry never
reaches the request. -/
theorem getActivity_query_merges_defaults (params : List (String × JSValue))
    (k : String) (hnd : (params.map Prod.fst).Nodup) :
    (buildActivityQuery params).lookup k =
      (match params.lookup k with
       | some v => if isForwarded v then some v else activityDefaults.lookup k
       | none => activityDefaults.lookup k) :=
  buildActivityQuery_foldl_lookup params activityDefaults k hnd

/-- Claim C9 witness: with a caller object carrying an empty-string
`algorithm`, a null `entity_type` and a concrete `hours_back`, the emitted
query keeps the `algorithm` default, omits `entity_type` and carries the
caller's `hours_back`. -/
theorem getActivity_query_merges_defaults_witness :
    ((buildActivityQuery
        [("algorithm", JSValue.jstr ""), ("entity_type", JSValue.jnull),
         ("hours_back", JSValue.jnum 48)]).lookup "algorithm" =
      some (JSValue.jstr "dbscan")) ∧
    ((buildActivityQuery
        [("algorithm", JSValue.jstr ""), ("entity_type", JSValue.jnull),
         ("hours_back", JSValue.jnum 48)]).lookup "entity_type" = none) ∧
    ((buildActivityQuery
        [("algorithm", JSValue.jstr ""), ("entity_type", JSValue.jnull),
         ("hours_back", JSValue.jnum 48)]).lookup "hours_back" =
      some (JSValue.jnum 48)) := by
  refine ⟨?_, ?_, ?_⟩
  · have h := getActivity_query_merges_defaults
      [("algorithm", JSValue.jstr ""), ("entity_type", JSValue.jnull),
       ("hours_back", JSValue.jnum 48)] "algorithm" (by decide)
    simpa using h
  · have h := getActivity_query_merges_defaults
      [("algorithm", JSValue.jstr ""), ("entity_type", JSValue.jnull),
       ("hours_back", JSValue.jnum 48)] "entity_type" (by decide)
    exact h.trans (by decide)
  · have h := getActivity_query_merges_defaults
      [("algorithm", JSValue.jstr ""), ("entity_type", JSValue.jnull),
       ("hours_back", JSValue.jnum 48)] "hours_back" (by decide)
    simpa using h

theorem lookup_bumpSeverity_self (m : List (String × Nat)) (sev : String) :
    (bumpSeverity m sev).lookup sev = some ((m.lookup sev).getD 0 + 1) := by
  unfold bumpSeverity
  cases hm : m.lookup sev with
  | some n => simp [lookup_setEntry_self]
  | none => simp [List.lookup_append, hm]

theorem lookup_bumpSeverity_ne (m : List (String × Nat)) (sev k : String)
    (h : k ≠ sev) : (bumpSeverity m sev).lookup k = m.lookup k := by
  unfold bumpSeverity
  cases hm : m.lookup sev with
  | some n => simp [lookup_setEntry_ne _ _ _ _ h]
  | none =>
    have hone : ([(sev, 1)] : List (String × Nat)).lookup k = none := by
      have hb : (k == sev) = false := by simpa [beq_eq_false_iff_ne] using h
      simp [List.lookup_cons, hb]
    cases hk : m.lookup k <;> simp [List.lookup_append, hk, hone]

theorem lookup_foldl_bumpSeverity (alerts : List ListedAlert) :
    ∀ (m : List (String × Nat)) (k : String), (m.lookup k).isSome →
      (alerts.foldl (fun m a => bumpSeverity m a.severity) m).lookup k =
        some ((m.lookup k).getD 0 + countSev alerts k) := by
  induction alerts with
  | nil =>
    intro m k h
    cases hm : m.lookup k with
    | some n => simp [countSev, hm]
    | none => rw [hm] at h; simp at h
  | cons a as ih =>
    intro m k h
    simp only [List.foldl_cons]
    by_cases hk : k = a.severity
    · subst hk
      have hself := lookup_bumpSeverity_self m a.severity
      rw [ih _ _ (by simp [hself])]
      rw [hself]
      have hcount : countSev (a :: as) a.severity = countSev as a.severity + 1 := by
        simp [countSev, List.filter_cons]
      rw [hcount]
      simp only [Option.getD_some, Option.some.injEq]
      omega
    · have hne := lookup_bumpSeverity_ne m a.severity k (by exact hk)
      rw [ih _ _ (by rw [hne]; exact h)]
      rw [hne]
      have hb : (a.severity == k) = false := by
        simp only [beq_eq_false_iff_ne, ne_eq]
        exact fun hs => hk hs.symm
      have hcount : countSev (a :: as) k = countSev as k := by
        simp [countSev, List.filter_cons, hb]
      rw [hcount]

theorem countSev_partition (alerts : List ListedAlert)
    (h : ∀ a ∈ alerts, a.severity = "low" ∨ a.severity = "medium" ∨
      a.severity = "high" ∨ a.severity = "critical") :
    countSev alerts "low" + countSev alerts "medium" + countSev alerts "high" +
      countSev alerts "critical" = alerts.length := by
  induction alerts with
  | nil => simp [countSev]
  | cons a as ih =>
    have ha := h a (List.mem_cons_self a as)
    have ihh := ih (fun b hb => h b (List.mem_cons_of_mem a hb))
    simp only [countSev] at ihh
    rcases ha with ha | ha | ha | ha <;>
      simp [countSev, List.filter_cons, ha] <;> omega

/-- Claim C10: `alertsAPI.getStats` reports `total_alerts` as the list
response's `total` field, `enabled_alerts` as the number of listed alerts
with `enabled` set, per-severity counts over low/medium/high/critical
summing to the number of listed alerts (when severities are well formed),
and `triggered_last_24h` as the number of triggered rows whose timestamp
is strictly within 24 hours of the current time. -/
theorem getStats_fields_correct (L : AlertsListResponse) (T : TriggeredResponse)
    (now : Int)
    (h : ∀ a ∈ L.alerts, a.severity = "low" ∨ a.severity = "medium" ∨
      a.severity = "high" ∨ a.severity = "critical") :
    (getStats L T now).total_alerts = L.total ∧
    (getStats L T now).enabled_alerts =
      (L.alerts.filter (fun a => a.enabled)).length ∧
    ((getStats L T now).by_severity.lookup "low").getD 0 +
      ((getStats L T now).by_severity.lookup "medium").getD 0 +
      ((getStats L T now).by_severity.lookup "high").getD 0 +
      ((getStats L T now).by_severity.lookup "critical").getD 0 = L.alerts.length ∧
    (getStats L T now).triggered_last_24h =
      (T.triggered.filter
        (fun t => now - t.triggered_at < 24 * 60 * 60 * 1000)).length := by
  refine ⟨rfl, rfl, ?_, rfl⟩
  have base : (getStats L T now).by_severity = bySeverityOf L.alerts := rfl
  have hlow := lookup_foldl_bumpSeverity L.alerts
    [("low", 0), ("medium", 0), ("high", 0), ("critical", 0)] "low" (by decide)
  have hmed := lookup_foldl_bumpSeverity L.alerts
    [("low", 0), ("medium", 0), ("high", 0), ("critical", 0)] "medium" (by decide)
  have hhigh := lookup_foldl_bumpSeverity L.alerts
    [("low", 0), ("medium", 0), ("high", 0), ("critical", 0)] "high" (by decide)
  have hcrit := lookup_foldl_bumpSeverity L.alerts
    [("low", 0), ("medium", 0), ("high", 0), ("critical", 0)] "critical" (by decide)
  rw [base]
  unfold bySeverityOf
  rw [hlow, hmed, hhigh, hcrit]
  simpa [List.lookup] using countSev_partition L.alerts h

/-- Claim C10 witness: a concrete pair of responses with three alerts of
mixed severities, one disabled, and two triggered rows of which one is
within the last 24 hours. -/
theorem getStats_fields_correct_witness :
    (getStats { alerts := [{ enabled := true, severity := "low" },
                           { enabled := false, severity := "high" },
                           { enabled := true, severity := "high" }], total := 3 }
        { triggered := [{ triggered_at := 90000000 },
                        { triggered_at := 1000 }] } 100000000).total_alerts = 3 ∧
    (getStats { alerts := [{ enabled := true, severity := "low" },
                           { enabled := false, severity := "high" },
                           { enabled := true, severity := "high" }], total := 3 }
        { triggered := [{ triggered_at := 90000000 },
                        { triggered_at := 1000 }] } 100000000).enabled_alerts = 2 ∧
    ((getStats { alerts := [{ enabled := true, severity := "low" },
                            { enabled := false, severity := "high" },
                            { enabled := true, severity := "high" }], total := 3 }
        { triggered := [{ triggered_at := 90000000 },
                        { triggered_at := 1000 }] } 100000000).by_severity.lookup
      "low").getD 0 +
      ((getStats { alerts := [{ enabled := true, severity := "low" },
                              { enabled := false, severity := "high" },
                              { enabled := true, severity := "high" }], total := 3 }
          { triggered := [{ triggered_at := 90000000 },
                          { triggered_at := 1000 }] } 100000000).by_severity.lookup
        "medium").getD 0 +
      ((getStats { alerts := [{ enabled := true, severity := "low" },
                              { enabled := false, severity := "high" },
                              { enabled := true, severity := "high" }], total := 3 }
          { triggered := [{ triggered_at := 90000000 },
                          { triggered_at := 1000 }] } 100000000).by_severity.lookup
        "high").getD 0 +
      ((getStats { alerts := [{ enabled := true, severity := "low" },
                              { enabled := false, severity := "high" },
                              { enabled := true, severity := "high" }], total := 3 }
          { triggered := [{ triggered_at := 90000000 },
                          { triggered_at := 1000 }] } 100000000).by_severity.lookup
        "critical").getD 0 = 3 ∧
    (getStats { alerts := [{ enabled := true, severity := "low" },
                           { enabled := false, severity := "high" },
                           { enabled := true, severity := "high" }], total := 3 }
        { triggered := [{ triggered_at := 90000000 },
                        { triggered_at := 1000 }] } 100000000).triggered_last_24h = 1 := by
  have h := getStats_fields_correct
    { alerts := [{ enabled := true, severity := "low" },
                 { enabled := false, severity := "high" },
                 { enabled := true, severity := "high" }], total := 3 }
    { triggered := [{ triggered_at := 90000000 },
                    { triggered_at := 1000 }] } 100000000 (by decide)
  obtain ⟨h1, h2, h3, h4⟩ := h
  refine ⟨h1, ?_, ?_, ?_⟩
  · rw [h2]; decide
  · rw [h3]; decide
  · rw [h4]; decide

theorem find?_map_if (l : List AlertDefinition) (id : Nat) (a : AlertDefinition)
    (g : AlertDefinition → AlertDefinition) (hg : ∀ b, (g b).id = b.id)
    (h : l.find? (fun b => b.id = id) = some a) :
    (l.map (fun b => if b.id = id then g b else b)).find?
      (fun b => b.id = id) = some (g a) := by
  induction l with
  | nil => simp at h
  | cons c l ih =>
    by_cases hc : c.id = id
    · rw [List.find?_cons_of_pos _ (by simpa using hc)] at h
      obtain rfl : c = a := by simpa using h
      simp only [List.map_cons, if_pos hc]
      exact List.find?_cons_of_pos _ (by simpa [hg] using hc)
    · rw [List.find?_cons_of_neg _ (by simpa using hc)] at h
      simp only [List.map_cons, if_neg hc]
      rw [List.find?_cons_of_neg _ (by simpa using hc)]
      exact ih h

/-- Claim C2: `toggle(id)` on an existing alert of any category succeeds
and flips only the `enabled` flag; the name, description, severity,
category payload (quality_type, detection parameters), trigger_count,
last_triggered_at and created_at of the definition are unchanged, the
trigger history is unchanged, and every other alert is untouched. -/
theorem toggle_flips_only_enabled (s : RuleStore) (id : Nat) (a : AlertDefinition)
    (h : getAlert s id = some a) :
    ∃ s', toggleAlert s id = Except.ok s' ∧
      (∃ a', getAlert s' id = some a' ∧
        a'.enabled = !a.enabled ∧
        a'.name = a.name ∧
        a'.description = a.description ∧
        a'.severity = a.severity ∧
        a'.payload = a.payload ∧
        a'.trigger_count = a.trigger_count ∧
        a'.last_triggered_at = a.last_triggered_at ∧
        a'.created_at = a.created_at) ∧
      s'.history = s.history ∧
      ∀ b ∈ s.alerts, b.id ≠ id → b ∈ s'.alerts := by
  refine ⟨{ s with alerts := s.alerts.map (fun b =>
      if b.id = id then applyPatch b { enabled := some (!a.enabled) } else b) },
    ?_, ?_, rfl, ?_⟩
  · unfold toggleAlert updateAlert
    rw [h]
    rfl
  · refine ⟨applyPatch a { enabled := some (!a.enabled) }, ?_, ?_⟩
    · exact find?_map_if s.alerts id a _ (fun b => rfl) h
    · simp [applyPatch]
  · intro b hb hbid
    simp only [List.mem_map]
    exact ⟨b, hb, by simp [hbid]⟩

/-- Claim C2 witness: toggling a concrete enabled data-quality alert
disables it and keeps every other field. -/
theorem toggle_flips_only_enabled_witness :
    ∃ s', toggleAlert
        { alerts := [{ id := 7, name := "dq", description := none,
                       severity := Severity.high, enabled := true,
                       trigger_count := 2, last_triggered_at := some 5,
                       created_at := 1,
                       payload := AlertPayload.dataQuality "format_error" "all"
                         none none }],
          history := [] } 7 = Except.ok s' ∧
      (∃ a', getAlert s' 7 = some a' ∧
        a'.enabled = !true ∧
        a'.name = "dq" ∧
        a'.description = none ∧
        a'.severity = Severity.high ∧
        a'.payload = AlertPayload.dataQuality "format_error" "all" none none ∧
        a'.trigger_count = 2 ∧
        a'.last_triggered_at = some 5 ∧
        a'.created_at = 1) ∧
      s'.history = ([] : List TriggeredAlertRecord) ∧
      ∀ b ∈ ({ alerts := [{ id := 7, name := "dq", description := none,
                            severity := Severity.high, enabled := true,
                            trigger_count := 2, last_triggered_at := some 5,
                            created_at := 1,
                            payload := AlertPayload.dataQuality "format_error" "all"
                              none none }],
               history := [] } : RuleStore).alerts, b.id ≠ 7 → b ∈ s'.alerts :=
  toggle_flips_only_enabled
    { alerts := [{ id := 7, name := "dq", description := none,
                   severity := Severity.high, enabled := true,
                   trigger_count := 2, last_triggered_at := some 5,
                   created_at := 1,
                   payload := AlertPayload.dataQuality "format_error" "all"
                     none none }],
      history := [] } 7
    { id := 7, name := "dq", description := none, severity := Severity.high,
      enabled := true, trigger_count := 2, last_triggered_at := some 5,
      created_at := 1,
      payload := AlertPayload.dataQuality "format_error" "all" none none }
    (by decide)

theorem mem_of_mem_listAlerts {s : RuleStore} {eo : Bool} {lim : Nat}
    {a : AlertDefinition} (h : a ∈ listAlerts s eo lim) : a ∈ s.alerts := by
  unfold listAlerts at h
  have h' := List.mem_of_mem_take h
  cases eo with
  | false => simpa using h'
  | true =>
    simp only [if_pos] at h'
    exact (List.mem_filter.mp h').1

/-- Claim C7: `delete(id)` removes the definition from every subsequent
`list()` result while leaving the trigger history untouched, so every
previously written TriggeredAlertRecord stays retrievable through
`recent_alerts()` exactly as before the deletion. -/
theorem delete_keeps_history (s : RuleStore) (id : Nat) :
    (∀ eo lim, ∀ a ∈ listAlerts (deleteAlert s id) eo lim, a.id ≠ id) ∧
    (deleteAlert s id).history = s.history ∧
    ∀ lim, recentAlerts (deleteAlert s id) lim = recentAlerts s lim := by
  refine ⟨?_, rfl, fun lim => rfl⟩
  intro eo lim a ha
  have hmem : a ∈ (deleteAlert s id).alerts := mem_of_mem_listAlerts ha
  have := (List.mem_filter.mp hmem).2
  simpa using this

/-- Claim C8: `dashboard.recent_alerts(limit)` returns at most `limit`
records, sorted newest first by `triggered_at`, and each returned record
is drawn from the full cross-category trigger history. -/
theorem recentAlerts_spec (s : RuleStore) (limit : Nat) :
    (recentAlerts s limit).length ≤ limit ∧
    List.Sorted newestFirst (recentAlerts s limit) ∧
    ∀ t ∈ recentAlerts s limit, t ∈ s.history := by
  refine ⟨?_, ?_, ?_⟩
  · exact List.length_take_le limit (List.insertionSort newestFirst s.history)
  · exact List.Pairwise.sublist (List.take_sublist _ _)
      (List.sorted_insertionSort newestFirst s.history)
  · intro t ht
    have := List.mem_of_mem_take ht
    exact (List.mem_insertionSort newestFirst).mp this

theorem validEntityParams_iff (p : EntityParams) :
    validEntityParams p = true ↔ EntityInRange p := by
  simp only [validEntityParams, EntityInRange, Bool.and_eq_true, decide_eq_true_eq,
    and_assoc]

theorem createAlert_ok_iff (s : RuleStore) (a : AlertDefinition) (s' : RuleStore) :
    createAlert s a = Except.ok s' ↔
      validPayload a.payload = true ∧
      s' = { s with alerts := s.alerts ++ [a] } := by
  unfold createAlert
  by_cases hv : validPayload a.payload = true <;> simp [hv, eq_comm]

theorem createAlert_invalid (s : RuleStore) (a : AlertDefinition)
    (hbad : validPayload a.payload = false) :
    createAlert s a = Except.error ApiError.validation := by
  unfold createAlert
  simp [hbad]

theorem updateAlert_ok_iff (s : RuleStore) (id : Nat) (u : AlertPatch)
    (s' : RuleStore) :
    updateAlert s id u = Except.ok s' ↔
      (getAlert s id).isSome ∧ validPatch u = true ∧
      s' = { s with alerts :=
        s.alerts.map (fun b => if b.id = id then applyPatch b u else b) } := by
  unfold updateAlert
  cases hga : getAlert s id with
  | none => simp
  | some c =>
    by_cases hvp : validPatch u = true <;> simp [hvp, eq_comm]

theorem updateAlert_invalid (s : RuleStore) (id : Nat) (u : AlertPatch)
    (c : AlertDefinition) (hc : getAlert s id = some c)
    (hbad : validPatch u = false) :
    updateAlert s id u = Except.error ApiError.validation := by
  unfold updateAlert
  rw [hc]
  simp [hbad]

/-- Claim C3: the public interface enforces the numeric boundary ranges —
a created entity-type alert is accepted exactly when dbscan_eps is in
(0,5], dbscan_min_samples in [1,20], kmeans_clusters in [2,10],
sensitivity in [0.5,5], window_hours in the fixed choice set and
baseline_days in [1,30] (and a smart-AI alert exactly when its
similarity_threshold is in [0.3,1]); an out-of-range create or update is
rejected with a ValidationError and produces no store (so nothing is
evaluated); and every store reachable from a valid store through a
successful create or update holds only in-range definitions. -/
theorem params_enforced_at_boundary (s : RuleStore) (a : AlertDefinition)
    (id : Nat) (u : AlertPatch) :
    (∀ p, a.payload = AlertPayload.entityType p →
      ((∃ s', createAlert s a = Except.ok s') ↔ EntityInRange p)) ∧
    (∀ alg th, a.payload = AlertPayload.smartAI alg th →
      ((∃ s', createAlert s a = Except.ok s') ↔ ((3/10 : ℚ) ≤ th ∧ th ≤ 1))) ∧
    (validPayload a.payload = false →
      createAlert s a = Except.error ApiError.validation) ∧
    (∀ pl c, u.payload = some pl → validPayload pl = false →
      getAlert s id = some c →
      updateAlert s id u = Except.error ApiError.validation) ∧
    ((∀ b ∈ s.alerts, validPayload b.payload = true) →
      (∀ s', createAlert s a = Except.ok s' →
        ∀ b ∈ s'.alerts, validPayload b.payload = true) ∧
      (∀ s', updateAlert s id u = Except.ok s' →
        ∀ b ∈ s'.alerts, validPayload b.payload = true)) := by
  refine ⟨?_, ?_, ?_, ?_, ?_⟩
  · intro p hp
    constructor
    · rintro ⟨s', hs'⟩
      have hv := ((createAlert_ok_iff s a s').mp hs').1
      rw [hp] at hv
      exact (validEntityParams_iff p).mp hv
    · intro hr
      refine ⟨_, (createAlert_ok_iff s a _).mpr ⟨?_, rfl⟩⟩
      rw [hp]
      exact (validEntityParams_iff p).mpr hr
  · intro alg th hp
    constructor
    · rintro ⟨s', hs'⟩
      have hv := ((createAlert_ok_iff s a s').mp hs').1
      rw [hp] at hv
      simpa [validPayload, Bool.and_eq_true, decide_eq_true_eq] using hv
    · intro hr
      refine ⟨_, (createAlert_ok_iff s a _).mpr ⟨?_, rfl⟩⟩
      rw [hp]
      simpa [validPayload, Bool.and_eq_true, decide_eq_true_eq] using hr
  · intro hv
    exact createAlert_invalid s a hv
  · intro pl c hpl hbad hc
    exact updateAlert_invalid s id u c hc (by simp [validPatch, hpl, hbad])
  · intro hall
    constructor
    · intro s' hs' b hb
      obtain ⟨hv, rfl⟩ := (createAlert_ok_iff s a s').mp hs'
      simp only [List.mem_append, List.mem_singleton] at hb
      rcases hb with hb | rfl
      · exact hall b hb
      · exact hv
    · intro s' hs' b hb
      obtain ⟨hsome, hvp, rfl⟩ := (updateAlert_ok_iff s id u s').mp hs'
      simp only [List.mem_map] at hb
      obtain ⟨c0, hc0, rfl⟩ := hb
      by_cases hcid : c0.id = id
      · rw [if_pos hcid]
        unfold applyPatch
        cases hup : u.payload with
        | none => simpa using hall c0 hc0
        | some pl =>
          simp only [hup, Option.getD_some]
          simpa [validPatch, hup] using hvp
      · rw [if_neg hcid]
        exact hall c0 hc0

/-- Claim C3 witness: an entity-type alert with dbscan_eps = 0 is
rejected with a ValidationError, and one with all parameters in range is
accepted. -/
theorem params_enforced_at_boundary_witness :
    createAlert { alerts := [], history := [] }
      { id := 1, name := "bad", description := none, severity := Severity.low,
        enabled := true, trigger_count := 0, last_triggered_at := none,
        created_at := 0,
        payload := AlertPayload.entityType
          { entity_type := "ALL", entity_value := none,
            detection_algorithm := Algo.dbscan, dbscan_eps := 0,
            dbscan_min_samples := 3, kmeans_clusters := 3,
            sensitivity := 1, window_hours := 24, baseline_days := 7 } } =
      Except.error ApiError.validation ∧
    (∃ s', createAlert { alerts := [], history := [] }
      { id := 2, name := "good", description := none, severity := Severity.low,
        enabled := true, trigger_count := 0, last_triggered_at := none,
        created_at := 0,
        payload := AlertPayload.entityType
          { entity_type := "ALL", entity_value := none,
            detection_algorithm := Algo.dbscan, dbscan_eps := 1,
            dbscan_min_samples := 3, kmeans_clusters := 3,
            sensitivity := 1, window_hours := 24, baseline_days := 7 } } =
      Except.ok s') := by
  constructor
  · exact (params_enforced_at_boundary { alerts := [], history := [] }
      { id := 1, name := "bad", description := none, severity := Severity.low,
        enabled := true, trigger_count := 0, last_triggered_at := none,
        created_at := 0,
        payload := AlertPayload.entityType
          { entity_type := "ALL", entity_value := none,
            detection_algorithm := Algo.dbscan, dbscan_eps := 0,
            dbscan_min_samples := 3, kmeans_clusters := 3,
            sensitivity := 1, window_hours := 24, baseline_days := 7 } }
      0 {}).2.2.1 (by decide)
  · exact ((params_enforced_at_boundary { alerts := [], history := [] }
      { id := 2, name := "good", description := none, severity := Severity.low,
        enabled := true, trigger_count := 0, last_triggered_at := none,
        created_at := 0,
        payload := AlertPayload.entityType
          { entity_type := "ALL", entity_value := none,
            detection_algorithm := Algo.dbscan, dbscan_eps := 1,
            dbscan_min_samples := 3, kmeans_clusters := 3,
            sensitivity := 1, window_hours := 24, baseline_days := 7 } }
      0 {}).1 _ rfl).mpr (by unfold EntityInRange; norm_num)

theorem numBuckets_eq_ceil (a b : Nat) (ha : 0 < a) (hb : 0 < b) :
    (a + b - 1) / b = ⌈(a : ℚ) / b⌉₊ := by
  set n := (a + b - 1) / b with hn
  have h1 : n * b ≤ a + b - 1 := Nat.div_mul_le_self _ _
  have h2 : a + b - 1 < (n + 1) * b := (Nat.div_lt_iff_lt_mul hb).mp (Nat.lt_succ_self n)
  rw [Nat.succ_mul] at h2
  have hge : a ≤ n * b := by omega
  have hn1 : 1 ≤ n := by
    rcases Nat.eq_zero_or_pos n with h0 | h1
    · rw [h0, Nat.zero_mul] at hge
      omega
    · exact h1
  have hsub : (n - 1) * b = n * b - b := by rw [Nat.sub_mul, one_mul]
  have hlt : (n - 1) * b < a := by omega
  have hb' : (0 : ℚ) < b := by exact_mod_cast hb
  have hn0 : n ≠ 0 := by omega
  refine ((Nat.ceil_eq_iff hn0).mpr ⟨?_, ?_⟩).symm
  · rw [lt_div_iff₀ hb']
    exact_mod_cast hlt
  · rw [div_le_iff₀ hb']
    exact_mod_cast hge

/-- Claim C5: for every valid range `[lo, hi)` and positive bucket width,
the Activity Aggregator succeeds and returns exactly `ceil((hi-lo)/w)`
buckets, in strictly increasing time order, with the bucket for every
interval present (carrying its event count, zero included — no bucket is
omitted). -/
theorem aggregator_covers_range (events : List Nat) (lo hi w : Nat)
    (hrange : lo < hi) (hw : 0 < w) :
    ∃ bs, aggregate events lo hi w = Except.ok bs ∧
      bs.length = ⌈((hi : ℚ) - lo) / w⌉₊ ∧
      List.Pairwise (fun b c : Bucket => b.timestamp < c.timestamp) bs ∧
      ∀ i, ∀ h : i < bs.length,
        (bs.get ⟨i, h⟩).timestamp = lo + i * w ∧
        (bs.get ⟨i, h⟩).count = bucketCount events (lo + i * w) w := by
  refine ⟨bucketSeq events lo hi w, ?_, ?_, ?_, ?_⟩
  · unfold aggregate
    rw [if_neg (by omega)]
  · have hcast : ((hi : ℚ) - lo) = ((hi - lo : ℕ) : ℚ) := by
      rw [Nat.cast_sub (Nat.le_of_lt hrange)]
    rw [hcast]
    unfold bucketSeq numBuckets
    rw [List.length_map, List.length_range]
    exact numBuckets_eq_ceil (hi - lo) w (by omega) hw
  · unfold bucketSeq
    rw [List.pairwise_map]
    exact (List.sorted_lt_range _).imp
      (fun hij => Nat.add_lt_add_left ((Nat.mul_lt_mul_right hw).mpr hij) lo)
  · intro i h
    unfold bucketSeq at h ⊢
    constructor <;>
      simp [List.get_eq_getElem]

/-- Claim C5 witness: the aggregator over `[2, 7)` with width 2 returns
three buckets starting at 2, 4 and 6. -/
theorem aggregator_covers_range_witness :
    ∃ bs, aggregate [3, 3, 6] 2 7 2 = Except.ok bs ∧
      bs.length = ⌈((7 : ℚ) - 2) / 2⌉₊ ∧
      List.Pairwise (fun b c : Bucket => b.timestamp < c.timestamp) bs ∧
      ∀ i, ∀ h : i < bs.length,
        (bs.get ⟨i, h⟩).timestamp = 2 + i * 2 ∧
        (bs.get ⟨i, h⟩).count = bucketCount [3, 3, 6] (2 + i * 2) 2 :=
  aggregator_covers_range [3, 3, 6] 2 7 2 (by decide) (by decide)

/-- Claim C6: the Anomaly Detector is deterministic — two runs on equal
bucket sequences, equal parameter sets (algorithm, eps, min_samples,
clusters, sensitivity) and equal baselines produce equal anomaly flags;
the detector is a pure function of these inputs. -/
theorem detector_deterministic (c1 c2 : List Nat) (p1 p2 : DetectorParams)
    (b1 b2 : ℚ) (hc : c1 = c2) (hp : p1 = p2) (hb : b1 = b2) :
    detectAnomalies c1 p1 b1 = detectAnomalies c2 p2 b2 := by
  subst hc
  subst hp
  subst hb
  rfl

/-- Claim C6 witness: two runs of the detector on the same concrete
spiky sequence and the same DBSCAN parameters agree. -/
theorem detector_deterministic_witness :
    detectAnomalies [5, 6, 5, 7, 6, 40, 6, 5]
        { algorithm := Algo.dbscan, eps := 2, min_samples := 2,
          clusters := 3, sensitivity := 1 } 6 =
      detectAnomalies [5, 6, 5, 7, 6, 40, 6, 5]
        { algorithm := Algo.dbscan, eps := 2, min_samples := 2,
          clusters := 3, sensitivity := 1 } 6 :=
  detector_deterministic _ _ _ _ _ _ rfl rfl rfl

/-- Claim C1: for every alert category, `evaluate(id)` yields a result
carrying the boolean `triggered` flag, the category-specific diagnostic
payload (issues list for data-quality, with `triggered` exactly when an
issue matches the alert's quality_type; current/baseline value, the
alert's algorithm, anomaly type and trigger reason for entity-type and
smart-AI) and the evaluation timestamp. -/
theorem evaluate_returns_shaped_result (a : AlertDefinition) (env : EvalEnv)
    (now : Nat) :
    (evaluateDefinition a env now).timestamp = now ∧
    (∀ qt ff smin smax, a.payload = AlertPayload.dataQuality qt ff smin smax →
      ∃ issues, (evaluateDefinition a env now).payload =
          ResultPayload.dataQuality issues ∧
        (evaluateDefinition a env now).triggered =
          issues.any (fun i => i.error_type = qt)) ∧
    (∀ p, a.payload = AlertPayload.entityType p →
      ∃ cv bv t r, (evaluateDefinition a env now).payload =
        ResultPayload.anomaly cv bv p.detection_algorithm t r ∧
        (evaluateDefinition a env now).triggered =
          (runSeries ((env.events.filter (matchesEntity p)).map (fun e => e.time))
            { algorithm := p.detection_algorithm, eps := p.dbscan_eps,
              min_samples := p.dbscan_min_samples, clusters := p.kmeans_clusters,
              sensitivity := p.sensitivity }
            p.window_hours p.baseline_days now).is_anomaly) ∧
    (∀ alg th, a.payload = AlertPayload.smartAI alg th →
      ∃ cv bv t r, (evaluateDefinition a env now).payload =
        ResultPayload.anomaly cv bv alg t r) := by
  obtain ⟨aid, nm, ds, sv, en, tc, lta, ca, pl⟩ := a
  cases pl with
  | dataQuality qt ff smin smax =>
    refine ⟨rfl, ?_, ?_, ?_⟩
    · intro qt' ff' smin' smax' h
      injection h with h1 h2 h3 h4
      subst h1
      subst h2
      subst h3
      subst h4
      exact ⟨dataQualityIssues ff smin smax env.ingestion, rfl, rfl⟩
    · intro p h
      exact AlertPayload.noConfusion h
    · intro alg th h
      exact AlertPayload.noConfusion h
  | entityType p =>
    refine ⟨rfl, ?_, ?_, ?_⟩
    · intro qt' ff' smin' smax' h
      exact AlertPayload.noConfusion h
    · intro p' h
      injection h with h1
      subst h1
      exact ⟨_, _, _, _, rfl, rfl⟩
    · intro alg th h
      exact AlertPayload.noConfusion h
  | smartAI alg th =>
    refine ⟨rfl, ?_, ?_, ?_⟩
    · intro qt' ff' smin' smax' h
      exact AlertPayload.noConfusion h
    · intro p' h
      exact AlertPayload.noConfusion h
    · intro alg' th' h
      injection h with h1 h2
      subst h1
      subst h2
      exact ⟨_, _, _, _, rfl⟩

/-- Claim C1 witness: a concrete data-quality alert over a one-record
ingestion log yields a triggered result with its issues payload and the
evaluation timestamp, and a concrete entity-type alert yields an anomaly
payload carrying its own algorithm. -/
theorem evaluate_returns_shaped_result_witness :
    (evaluateDefinition
        { id := 1, name := "dq", description := none, severity := Severity.low,
          enabled := true, trigger_count := 0, last_triggered_at := none,
          created_at := 0,
          payload := AlertPayload.dataQuality "format_error" "all" none none }
        { ingestion := [{ file_format := "csv", file_size := 10,
                          error_type := some "format_error",
                          error_details := "bad header" }],
          events := [], semMatches := [], minMatchCount := 5 } 42).timestamp = 42 ∧
    (∃ issues, (evaluateDefinition
        { id := 1, name := "dq", description := none, severity := Severity.low,
          enabled := true, trigger_count := 0, last_triggered_at := none,
          created_at := 0,
          payload := AlertPayload.dataQuality "format_error" "all" none none }
        { ingestion := [{ file_format := "csv", file_size := 10,
                          error_type := some "format_error",
                          error_details := "bad header" }],
          events := [], semMatches := [], minMatchCount := 5 } 42).payload =
        ResultPayload.dataQuality issues ∧
      (evaluateDefinition
        { id := 1, name := "dq", description := none, severity := Severity.low,
          enabled := true, trigger_count := 0, last_triggered_at := none,
          created_at := 0,
          payload := AlertPayload.dataQuality "format_error" "all" none none }
        { ingestion := [{ file_format := "csv", file_size := 10,
                          error_type := some "format_error",
                          error_details := "bad header" }],
          events := [], semMatches := [], minMatchCount := 5 } 42).triggered =
        issues.any (fun i => i.error_type = "format_error")) ∧
    (∃ cv bv t r, (evaluateDefinition
        { id := 2, name := "et", description := none, severity := Severity.low,
          enabled := true, trigger_count := 0, last_triggered_at := none,
          created_at := 0,
          payload := AlertPayload.entityType
            { entity_type := "ALL", entity_value := none,
              detection_algorithm := Algo.kmeans, dbscan_eps := 1,
              dbscan_min_samples := 3, kmeans_clusters := 3,
              sensitivity := 1, window_hours := 24, baseline_days := 7 } }
        { ingestion := [], events := [], semMatches := [], minMatchCount := 5 }
        42).payload = ResultPayload.anomaly cv bv Algo.kmeans t r) := by
  refine ⟨?_, ?_, ?_⟩
  · exact (evaluate_returns_shaped_result
      { id := 1, name := "dq", description := none, severity := Severity.low,
        enabled := true, trigger_count := 0, last_triggered_at := none,
        created_at := 0,
        payload := AlertPayload.dataQuality "format_error" "all" none none }
      { ingestion := [{ file_format := "csv", file_size := 10,
                        error_type := some "format_error",
                        error_details := "bad header" }],
        events := [], semMatches := [], minMatchCount := 5 } 42).1
  · exact (evaluate_returns_shaped_result
      { id := 1, name := "dq", description := none, severity := Severity.low,
        enabled := true, trigger_count := 0, last_triggered_at := none,
        created_at := 0,
        payload := AlertPayload.dataQuality "format_error" "all" none none }
      { ingestion := [{ file_format := "csv", file_size := 10,
                        error_type := some "format_error",
                        error_details := "bad header" }],
        events := [], semMatches := [], minMatchCount := 5 } 42).2.1
      "format_error" "all" none none rfl
  · obtain ⟨cv, bv, t, r, hp, _⟩ := (evaluate_returns_shaped_result
      { id := 2, name := "et", description := none, severity := Severity.low,
        enabled := true, trigger_count := 0, last_triggered_at := none,
        created_at := 0,
        payload := AlertPayload.entityType
          { entity_type := "ALL", entity_value := none,
            detection_algorithm := Algo.kmeans, dbscan_eps := 1,
            dbscan_min_samples := 3, kmeans_clusters := 3,
            sensitivity := 1, window_hours := 24, baseline_days := 7 } }
      { ingestion := [], events := [], semMatches := [], minMatchCount := 5 }
      42).2.2.1
      { entity_type := "ALL", entity_value := none,
        detection_algorithm := Algo.kmeans, dbscan_eps := 1,
        dbscan_min_samples := 3, kmeans_clusters := 3,
        sensitivity := 1, window_hours := 24, baseline_days := 7 } rfl
    exact ⟨cv, bv, t, r, hp⟩

theorem map_ids_of_preserved (l : List AlertDefinition)
    (f : AlertDefinition → AlertDefinition) (hf : ∀ b, (f b).id = b.id) :
    (l.map f).map (fun a => a.id) = l.map (fun a => a.id) := by
  rw [List.map_map]
  exact List.map_congr_left (fun b _ => hf b)

theorem filterConsPos {α : Type} (p : α → Bool) (a : α) (l : List α)
    (h : p a = true) : List.filter p (a :: l) = a :: List.filter p l := by
  simp [List.filter_cons, h]

theorem filterConsNeg {α : Type} (p : α → Bool) (a : α) (l : List α)
    (h : p a = false) : List.filter p (a :: l) = List.filter p l := by
  simp [List.filter_cons, h]

theorem invariant_after_trigger (alerts : List AlertDefinition)
    (history : List TriggeredAlertRecord) (id : Nat) (rec : TriggeredAlertRecord)
    (now : Nat) (hrecid : rec.alert_id = id) (hrecat : rec.triggered_at = now)
    (hnd : (alerts.map (fun a => a.id)).Nodup)
    (hinv : ∀ a ∈ alerts,
      a.trigger_count = (history.filter (fun t => t.alert_id == a.id)).length ∧
      a.last_triggered_at =
        ((history.filter (fun t => t.alert_id == a.id)).head?).map
          (fun t => t.triggered_at)) :
    StoreInvariant
      { alerts := alerts.map (fun b => if b.id = id then { b with trigger_count := b.trigger_count + 1, last_triggered_at := some now } else b),
        history := rec :: history } := by
  unfold StoreInvariant
  dsimp only
  refine ⟨?_, ?_⟩
  · rw [map_ids_of_preserved alerts
      (fun b => if b.id = id then { b with trigger_count := b.trigger_count + 1, last_triggered_at := some now } else b)
      (fun b => by by_cases hb : b.id = id <;> simp [hb])]
    exact hnd
  · intro b' hb'
    obtain ⟨b, hb, rfl⟩ := List.mem_map.mp hb'
    obtain ⟨h1, h2⟩ := hinv b hb
    by_cases hbid : b.id = id
    · rw [if_pos hbid]
      have hpos : (rec.alert_id == b.id) = true := by
        rw [hrecid, hbid]
        simp
      constructor
      · show b.trigger_count + 1 =
          (List.filter (fun t => t.alert_id == b.id) (rec :: history)).length
        rw [filterConsPos (fun t => t.alert_id == b.id) rec history hpos, List.length_cons, h1]
      · show some now =
          ((List.filter (fun t => t.alert_id == b.id) (rec :: history)).head?).map
            (fun t => t.triggered_at)
        rw [filterConsPos (fun t => t.alert_id == b.id) rec history hpos]
        simp [hrecat]
    · rw [if_neg hbid]
      have hneg : ¬ ((rec.alert_id == b.id) = true) := by
        simp only [beq_iff_eq, hrecid]
        exact fun hk => hbid hk.symm
      constructor
      · show b.trigger_count =
          (List.filter (fun t => t.alert_id == b.id) (rec :: history)).length
        rw [filterConsNeg (fun t => t.alert_id == b.id) rec history (by simpa using hneg)]
        exact h1
      · show b.last_triggered_at =
          ((List.filter (fun t => t.alert_id == b.id) (rec :: history)).head?).map
            (fun t => t.triggered_at)
        rw [filterConsNeg (fun t => t.alert_id == b.id) rec history (by simpa using hneg)]
        exact h2

/-- Claim C4: trigger bookkeeping — an evaluation that triggers appends
exactly one TriggeredAlertRecord (timestamped now), increments the
alert's trigger_count by exactly one and sets last_triggered_at to the
new record's timestamp; an evaluation that does not trigger (or finds no
alert) mutates nothing; and the store invariant — trigger_count equals
the number of history rows of the alert and last_triggered_at equals the
most recent such row's timestamp, or none — is preserved. -/
theorem evaluation_bookkeeping (s : RuleStore) (id : Nat) (env : EvalEnv)
    (now : Nat) (hinv : StoreInvariant s) :
    StoreInvariant (runEvaluation s id env now).1 ∧
    ((runEvaluation s id env now).2 = none → (runEvaluation s id env now).1 = s) ∧
    (∀ r, (runEvaluation s id env now).2 = some r → r.triggered = false →
      (runEvaluation s id env now).1 = s) ∧
    (∀ r, (runEvaluation s id env now).2 = some r → r.triggered = true →
      ∃ rec, (runEvaluation s id env now).1.history = rec :: s.history ∧
        rec.alert_id = id ∧ rec.triggered_at = now ∧
        ∀ a ∈ s.alerts, a.id = id →
          ∃ a', a' ∈ (runEvaluation s id env now).1.alerts ∧ a'.id = id ∧
            a'.trigger_count = a.trigger_count + 1 ∧
            a'.last_triggered_at = some rec.triggered_at) := by
  cases hga : getAlert s id with
  | none =>
    have hrun : runEvaluation s id env now = (s, none) := by
      unfold runEvaluation
      rw [hga]
    rw [hrun]
    refine ⟨hinv, fun _ => rfl, fun r h hf => rfl, fun r h htru => ?_⟩
    exact Option.noConfusion h
  | some a =>
    have haid : a.id = id := by
      have := List.find?_some hga
      simpa using this
    by_cases htr : (evaluateDefinition a env now).triggered = true
    · have hrun : runEvaluation s id env now =
        ({ alerts := s.alerts.map (fun b => if b.id = id then { b with trigger_count := b.trigger_count + 1, last_triggered_at := some now } else b),
           history := mkRecord a (evaluateDefinition a env now) now :: s.history },
         some (evaluateDefinition a env now)) := by
        unfold runEvaluation
        rw [hga]
        simp [htr]
      rw [hrun]
      refine ⟨?_, ?_, ?_, ?_⟩
      · exact invariant_after_trigger s.alerts s.history id
          (mkRecord a (evaluateDefinition a env now) now) now haid rfl
          hinv.1 hinv.2
      · intro h
        exact Option.noConfusion h
      · intro r h hfalse
        have heq := Option.some.inj h
        rw [← heq, htr] at hfalse
        exact Bool.noConfusion hfalse
      · intro r h htrue
        refine ⟨mkRecord a (evaluateDefinition a env now) now, rfl, haid, rfl, ?_⟩
        intro b hb hbid
        refine ⟨{ b with trigger_count := b.trigger_count + 1, last_triggered_at := some now }, ?_, hbid, rfl, rfl⟩
        exact List.mem_map.mpr ⟨b, hb, if_pos hbid⟩
    · have hrun : runEvaluation s id env now =
          (s, some (evaluateDefinition a env now)) := by
        unfold runEvaluation
        rw [hga]
        simp [htr]
      rw [hrun]
      refine ⟨hinv, fun _ => rfl, fun r h hfalse => rfl, ?_⟩
      intro r h htrue
      have heq := Option.some.inj h
      rw [← heq] at htrue
      exact absurd htrue htr

/-- Claim C4 witness: evaluating a concrete data-quality alert whose
ingestion log carries one matching issue triggers, appends one record
timestamped 10, bumps trigger_count from 0 to 1 and sets
last_triggered_at to 10; the store invariant holds afterwards. -/
theorem evaluation_bookkeeping_witness :
    StoreInvariant (runEvaluation
      { alerts := [{ id := 1, name := "dq", description := none,
                     severity := Severity.high, enabled := true,
                     trigger_count := 0, last_triggered_at := none,
                     created_at := 0,
                     payload := AlertPayload.dataQuality "format_error" "all" none none }],
        history := [] } 1
      { ingestion := [{ file_format := "csv", file_size := 10,
                        error_type := some "format_error",
                        error_details := "bad header" }],
        events := [], semMatches := [], minMatchCount := 5 } 10).1 ∧
    (∃ rec, (runEvaluation
      { alerts := [{ id := 1, name := "dq", description := none,
                     severity := Severity.high, enabled := true,
                     trigger_count := 0, last_triggered_at := none,
                     created_at := 0,
                     payload := AlertPayload.dataQuality "format_error" "all" none none }],
        history := [] } 1
      { ingestion := [{ file_format := "csv", file_size := 10,
                        error_type := some "format_error",
                        error_details := "bad header" }],
        events := [], semMatches := [], minMatchCount := 5 } 10).1.history =
        rec :: ([] : List TriggeredAlertRecord) ∧
      rec.alert_id = 1 ∧ rec.triggered_at = 10 ∧
      ∀ a ∈ ([{ id := 1, name := "dq", description := none,
                severity := Severity.high, enabled := true,
                trigger_count := 0, last_triggered_at := none,
                created_at := 0,
                payload := AlertPayload.dataQuality "format_error" "all" none none }] :
          List AlertDefinition), a.id = 1 →
        ∃ a', a' ∈ (runEvaluation
          { alerts := [{ id := 1, name := "dq", description := none,
                         severity := Severity.high, enabled := true,
                         trigger_count := 0, last_triggered_at := none,
                         created_at := 0,
                         payload := AlertPayload.dataQuality "format_error" "all" none none }],
            history := [] } 1
          { ingestion := [{ file_format := "csv", file_size := 10,
                            error_type := some "format_error",
                            error_details := "bad header" }],
            events := [], semMatches := [], minMatchCount := 5 } 10).1.alerts ∧
          a'.id = 1 ∧ a'.trigger_count = a.trigger_count + 1 ∧
          a'.last_triggered_at = some rec.triggered_at) := by
  have h := evaluation_bookkeeping
    { alerts := [{ id := 1, name := "dq", description := none,
                   severity := Severity.high, enabled := true,
                   trigger_count := 0, last_triggered_at := none,
                   created_at := 0,
                   payload := AlertPayload.dataQuality "format_error" "all" none none }],
      history := [] } 1
    { ingestion := [{ file_format := "csv", file_size := 10,
                      error_type := some "format_error",
                      error_details := "bad header" }],
      events := [], semMatches := [], minMatchCount := 5 } 10 (by decide)
  exact ⟨h.1, h.2.2.2 _ rfl (by decide)⟩

end EmailIntel
